import Mathlib

/-!
Shallow embedding of the quest-bot core (repository `botv1`).

Source files embedded:
  * `bot/models.py`        — data classes `Quest`, `QuestProgress`, `UserStats`
                             and the `QuestStatus` string constants;
  * `bot/json_database.py` — the flat-file store `JSONDatabase`: its four
                             in-memory dicts and the CRUD operations used by the
                             lifecycle engine;
  * `bot/quest_manager.py` — `QuestManager.accept_quest`, `complete_quest`,
                             `approve_quest`, `create_quest`, `delete_quest`;
  * `bot/user_stats.py`    — `UserStatsManager` counter updates;
  * `bot/permissions.py`   — `user_has_required_roles`.

Modelling conventions:
  * Python `datetime` values are modelled as `Nat` seconds; `datetime.now()`
    becomes an explicit `now : Nat` argument threaded into each operation.
    `timedelta(hours=24)` is `24 * 3600` seconds, and
    `int(remaining.total_seconds() / 3600)` is Nat floor division by `3600`
    (the remaining time is positive there, so Python's truncation toward
    zero is the floor).
  * A Python `dict` is an insertion-ordered map: we model it as an
    association list where updating an existing key replaces the value in
    place and a new key is appended at the end — exactly CPython semantics.
  * The composite string keys `f"{user_id}_{quest_id}"` and
    `f"{user_id}_{guild_id}"` of `json_database.py` are modelled as the
    corresponding pairs: the integer's decimal form contains no underscore,
    so the f-string encoding is in bijection with the pair.
  * `JSONDatabase` serializes records to JSON dicts on save and rebuilds the
    dataclass on load; for records written by the engine every field
    round-trips unchanged (isoformat/fromisoformat are mutually inverse), so
    the store holds the records themselves.
  * The database methods are `async` but perform no awaiting of external
    effects besides file writes and git calls (which do not affect the
    in-memory state read back); they are modelled as pure functions from the
    store state to (result, new store state).
-/

namespace Botv1

/-- `models.py` lines 31-38, class `QuestStatus`: status string constants. -/
def QuestStatus.AVAILABLE : String := "available"

def QuestStatus.ACCEPTED : String := "accepted"

def QuestStatus.COMPLETED : String := "completed"

def QuestStatus.APPROVED : String := "approved"

def QuestStatus.REJECTED : String := "rejected"

def QuestStatus.CANCELLED : String := "cancelled"

/-- `models.py` lines 41-61, dataclass `Quest` (`required_role_ids=None`
normalises to `[]` in `__post_init__`, so the field is a plain list;
`created_at` is always set by `__post_init__`, so it is a plain `Nat`). -/
structure Quest where
  quest_id : String
  title : String
  description : String
  creator_id : Int
  guild_id : Int
  requirements : String := ""
  reward : String := ""
  rank : String := "normal"
  category : String := "other"
  status : String := QuestStatus.AVAILABLE
  created_at : Nat := 0
  required_role_ids : List Int := []
deriving DecidableEq

/-- `models.py` lines 64-82, dataclass `QuestProgress` (`proof_image_urls=None`
normalises to `[]`; `accepted_at`/`completed_at` stay optional because the
store may hold `None` for them). -/
structure QuestProgress where
  quest_id : String
  user_id : Int
  guild_id : Int
  status : String := QuestStatus.ACCEPTED
  accepted_at : Option Nat := none
  completed_at : Option Nat := none
  proof_text : String := ""
  proof_image_urls : List String := []
  approval_status : String := ""
  accepted_channel_id : Option Int := none
deriving DecidableEq

/-- `models.py` lines 85-100, dataclass `UserStats` (the three counters;
activity dates always set by `__post_init__` / the stats manager). -/
structure UserStats where
  user_id : Int
  guild_id : Int
  quests_completed : Nat := 0
  quests_accepted : Nat := 0
  quests_rejected : Nat := 0
  first_quest_date : Nat := 0
  last_quest_date : Nat := 0
deriving DecidableEq

/-- `models.py` lines 103-111, dataclass `ChannelConfig`. -/
structure ChannelConfig where
  guild_id : Int
  quest_list_channel : Option Int := none
  quest_accept_channel : Option Int := none
  quest_submit_channel : Option Int := none
  quest_approval_channel : Option Int := none
  notification_channel : Option Int := none
deriving DecidableEq

/-- Python `dict` lookup `d[k]` / `k in d` on an insertion-ordered
association list. -/
def dictLookup {K V : Type} [DecidableEq K] (k : K) : List (K × V) → Option V
  | [] => none
  | e :: rest => if e.1 = k then some e.2 else dictLookup k rest

/-- Python `dict` assignment `d[k] = v`: replaces the value in place when the
key is present (CPython keeps the key's original position), appends at the
end otherwise. -/
def dictInsert {K V : Type} [DecidableEq K] (k : K) (v : V) : List (K × V) → List (K × V)
  | [] => [(k, v)]
  | e :: rest => if e.1 = k then (k, v) :: rest else e :: dictInsert k v rest

/-- Number of entries stored under key `k`; on a well-formed dict (distinct
keys) this is 0 or 1. -/
def countKey {K V : Type} [DecidableEq K] (k : K) (l : List (K × V)) : Nat :=
  (l.filter (fun e => decide (e.1 = k))).length

/-- `json_database.py` lines 10-24: the in-memory state of `JSONDatabase`
(the four dicts; file paths and git auto-commit do not affect the state the
engine reads back). Progress is keyed by `(user_id, quest_id)` and stats by
`(user_id, guild_id)`, the pairs behind the `f"{a}_{b}"` string keys. -/
structure JSONDatabase where
  quests : List (String × Quest) := []
  quest_progress : List ((Int × String) × QuestProgress) := []
  user_stats : List ((Int × Int) × UserStats) := []
  channel_config : List (Int × ChannelConfig) := []
deriving DecidableEq

/-- `json_database.py` lines 85-103, `save_quest`: store the record under its
`quest_id`. -/
def JSONDatabase.save_quest (db : JSONDatabase) (quest : Quest) : JSONDatabase :=
  { db with quests := dictInsert quest.quest_id quest db.quests }

/-- `json_database.py` lines 105-123, `get_quest`. -/
def JSONDatabase.get_quest (db : JSONDatabase) (quest_id : String) : Option Quest :=
  dictLookup quest_id db.quests

/-- `json_database.py` lines 148-162, `delete_quest`: only when the quest id
is present, remove it and every progress entry whose `quest_id` field equals
it; otherwise do nothing. -/
def JSONDatabase.delete_quest (db : JSONDatabase) (quest_id : String) : JSONDatabase :=
  if (dictLookup quest_id db.quests).isSome then
    { db with
      quests := db.quests.filter (fun e => decide (e.1 ≠ quest_id)),
      quest_progress :=
        db.quest_progress.filter (fun e => decide (e.2.quest_id ≠ quest_id)) }
  else db

/-- `json_database.py` lines 164-182, `save_quest_progress`: keyed by
`f"{progress.user_id}_{progress.quest_id}"`. -/
def JSONDatabase.save_quest_progress (db : JSONDatabase) (progress : QuestProgress) :
    JSONDatabase :=
  { db with
    quest_progress :=
      dictInsert (progress.user_id, progress.quest_id) progress db.quest_progress }

/-- `json_database.py` lines 184-202, `get_user_quest_progress`. -/
def JSONDatabase.get_user_quest_progress (db : JSONDatabase) (user_id : Int)
    (quest_id : String) : Option QuestProgress :=
  dictLookup (user_id, quest_id) db.quest_progress

/-- `json_database.py` lines 246-261, `save_user_stats`: keyed by
`f"{stats.user_id}_{stats.guild_id}"`. -/
def JSONDatabase.save_user_stats (db : JSONDatabase) (stats : UserStats) : JSONDatabase :=
  { db with
    user_stats := dictInsert (stats.user_id, stats.guild_id) stats db.user_stats }

/-- `json_database.py` lines 263-278, `get_user_stats`. -/
def JSONDatabase.get_user_stats (db : JSONDatabase) (user_id guild_id : Int) :
    Option UserStats :=
  dictLookup (user_id, guild_id) db.user_stats

/-- Python's tuple comparison on the sort key
`(x.quests_completed, x.quests_accepted)`: lexicographic `≤` on `Nat × Nat`. -/
def statKeyLe (a b : Nat × Nat) : Bool :=
  a.1 < b.1 || (a.1 == b.1 && a.2 ≤ b.2)

/-- The comparator realising `stats.sort(key=lambda x: (x.quests_completed,
x.quests_accepted), reverse=True)`: `x` may come before `y` iff `y`'s key is
lexicographically ≤ `x`'s key. CPython's sort is stable and `reverse=True`
keeps equal-key elements in their original order, which is exactly what a
stable merge sort under this total comparator produces. -/
def leaderboardLe (x y : UserStats) : Bool :=
  statKeyLe (y.quests_completed, y.quests_accepted) (x.quests_completed, x.quests_accepted)

/-- `json_database.py` lines 280-299, `get_guild_leaderboard`: collect the
guild's stats records in insertion order, sort by
`(quests_completed, quests_accepted)` descending (stable), truncate. -/
def JSONDatabase.get_guild_leaderboard (db : JSONDatabase) (guild_id : Int)
    (limit : Nat) : List UserStats :=
  let stats :=
    (db.user_stats.map Prod.snd).filter (fun s => decide (s.guild_id = guild_id))
  (stats.mergeSort leaderboardLe).take limit

/-- `permissions.py` lines 67-73, `user_has_required_roles`: the caller's
role ids stand in for `[role.id for role in user.roles]` (in
`accept_quest` the user object is rebuilt from the raw id list anyway).
Passes when no role is required, or when at least one required role is held
(`any`, union semantics). -/
def user_has_required_roles (user_role_ids required_role_ids : List Int) : Bool :=
  if required_role_ids.isEmpty then true
  else required_role_ids.any (fun role_id => user_role_ids.contains role_id)

/-- `quest_manager.py` lines 84-91: the `QuestProgress(...)` record built by
`accept_quest` on success — `status=ACCEPTED`, `accepted_at=datetime.now()`,
guild taken from the quest, the remaining fields at their dataclass
defaults. -/
def QuestManager.new_progress (quest : Quest) (quest_id : String) (user_id : Int)
    (accepted_channel_id : Option Int) (now : Nat) : QuestProgress :=
  { quest_id := quest_id
    user_id := user_id
    guild_id := quest.guild_id
    status := QuestStatus.ACCEPTED
    accepted_at := some now
    accepted_channel_id := accepted_channel_id }

/-- `quest_manager.py` lines 83-94 (the tail of `accept_quest` after all
checks passed): build the new `QuestProgress`, save it, return
`(progress, "")`. -/
def QuestManager.accept_quest_create (db : Botv1.JSONDatabase) (quest : Quest)
    (quest_id : String) (user_id : Int) (accepted_channel_id : Option Int)
    (now : Nat) : (Option QuestProgress × String) × Botv1.JSONDatabase :=
  ((some (QuestManager.new_progress quest quest_id user_id accepted_channel_id now), ""),
   db.save_quest_progress (QuestManager.new_progress quest quest_id user_id accepted_channel_id now))

/-- `quest_manager.py` lines 77-94 (the role-requirement check of
`accept_quest`): Python's `if quest.required_role_ids and user_role_ids:`
runs the check only when both lists are truthy, i.e. non-empty; an absent
(`None`) role list and an empty one behave identically, so the parameter is
a plain list. -/
def QuestManager.accept_quest_roles (db : Botv1.JSONDatabase) (quest : Quest)
    (quest_id : String) (user_id : Int) (user_role_ids : List Int)
    (accepted_channel_id : Option Int) (now : Nat) :
    (Option QuestProgress × String) × Botv1.JSONDatabase :=
  if !quest.required_role_ids.isEmpty && !user_role_ids.isEmpty then
    if !user_has_required_roles user_role_ids quest.required_role_ids then
      ((none, "You don't have the required roles for this quest!"), db)
    else QuestManager.accept_quest_create db quest quest_id user_id accepted_channel_id now
  else QuestManager.accept_quest_create db quest quest_id user_id accepted_channel_id now

/-- `quest_manager.py` lines 51-94, `QuestManager.accept_quest`: the chain of
early returns — quest missing, quest not available, existing progress
accepted/completed, rejected-and-cooling-down — then the role check and the
creation of the new progress record. A status other than
accepted/completed/rejected, a rejected record with no `accepted_at`, or an
expired cooldown all fall through to the role check (lines 76-83). -/
def QuestManager.accept_quest (db : Botv1.JSONDatabase) (quest_id : String)
    (user_id : Int) (user_role_ids : List Int) (accepted_channel_id : Option Int)
    (now : Nat) : (Option QuestProgress × String) × Botv1.JSONDatabase :=
  match db.get_quest quest_id with
  | none => ((none, "Quest not found!"), db)
  | some quest =>
    if quest.status != QuestStatus.AVAILABLE then
      ((none, "Quest is not available for acceptance!"), db)
    else
      match db.get_user_quest_progress user_id quest_id with
      | some existing_progress =>
        if existing_progress.status == QuestStatus.ACCEPTED
            || existing_progress.status == QuestStatus.COMPLETED then
          ((none, "You have already accepted this quest!"), db)
        else if existing_progress.status == QuestStatus.REJECTED then
          match existing_progress.accepted_at with
          | some last_attempt =>
            let cooldown_end := last_attempt + 24 * 3600
            if now < cooldown_end then
              let hours_remaining := (cooldown_end - now) / 3600
              ((none, "You must wait " ++ toString hours_remaining
                  ++ " hours before attempting this quest again!"), db)
            else
              QuestManager.accept_quest_roles db quest quest_id user_id
                user_role_ids accepted_channel_id now
          | none =>
            QuestManager.accept_quest_roles db quest quest_id user_id
              user_role_ids accepted_channel_id now
        else
          QuestManager.accept_quest_roles db quest quest_id user_id
            user_role_ids accepted_channel_id now
      | none =>
        QuestManager.accept_quest_roles db quest quest_id user_id
          user_role_ids accepted_channel_id now

/-- `quest_manager.py` lines 96-114, `QuestManager.complete_quest`: fail
(`None`, no state change) unless a progress record exists with status
exactly `accepted`; otherwise set status/completed_at/proof fields and the
`"pending"` approval tag, persist, return the updated record
(`proof_image_urls=None` normalises to `[]`, so the parameter is a list). -/
def QuestManager.complete_quest (db : Botv1.JSONDatabase) (quest_id : String)
    (user_id : Int) (proof_text : String) (proof_image_urls : List String)
    (now : Nat) : Option QuestProgress × Botv1.JSONDatabase :=
  match db.get_user_quest_progress user_id quest_id with
  | none => (none, db)
  | some progress =>
    if progress.status != QuestStatus.ACCEPTED then (none, db)
    else
      let updated : QuestProgress :=
        { progress with
          status := QuestStatus.COMPLETED
          completed_at := some now
          proof_text := proof_text
          proof_image_urls := proof_image_urls
          approval_status := "pending" }
      (some updated, db.save_quest_progress updated)

/-- `quest_manager.py` lines 116-133, `QuestManager.approve_quest`: fail
(`None`, no state change) unless a progress record exists with status
exactly `completed`; otherwise set status `approved`/`rejected` with the
matching approval tag, persist, return the updated record. -/
def QuestManager.approve_quest (db : Botv1.JSONDatabase) (quest_id : String)
    (user_id : Int) (approved : Bool) : Option QuestProgress × Botv1.JSONDatabase :=
  match db.get_user_quest_progress user_id quest_id with
  | none => (none, db)
  | some progress =>
    if progress.status != QuestStatus.COMPLETED then (none, db)
    else
      let updated : QuestProgress :=
        if approved then
          { progress with status := QuestStatus.APPROVED, approval_status := "approved" }
        else
          { progress with status := QuestStatus.REJECTED, approval_status := "rejected" }
      (some updated, db.save_quest_progress updated)

/-- `quest_manager.py` lines 14-37, `QuestManager.create_quest`: the random
8-character id `str(uuid.uuid4())[:8]` is passed in as a parameter; the new
quest gets `status=AVAILABLE` and `created_at=now` and is saved. -/
def QuestManager.create_quest (db : Botv1.JSONDatabase) (quest_id : String)
    (title description : String) (creator_id guild_id : Int)
    (requirements reward : String) (rank : String)
    (required_role_ids : List Int) (category : String) (now : Nat) :
    Quest × Botv1.JSONDatabase :=
  let quest : Quest :=
    { quest_id := quest_id
      title := title
      description := description
      creator_id := creator_id
      guild_id := guild_id
      requirements := requirements
      reward := reward
      rank := rank
      required_role_ids := required_role_ids
      category := category
      status := QuestStatus.AVAILABLE
      created_at := now }
  (quest, db.save_quest quest)

/-- `quest_manager.py` lines 143-149, `QuestManager.delete_quest`: delegates
to the store and returns `True` (the store's delete raises nothing in the
in-memory model, so the `except` branch is unreachable). -/
def QuestManager.delete_quest (db : Botv1.JSONDatabase) (quest_id : String) :
    Bool × Botv1.JSONDatabase :=
  (true, db.delete_quest quest_id)

/-- `user_stats.py` lines 18-33, `UserStatsManager.get_user_stats`: return
the stored record, or lazily create one with zero counters and both activity
dates = now, persisting it immediately. -/
def UserStatsManager.get_user_stats (db : Botv1.JSONDatabase) (user_id guild_id : Int)
    (now : Nat) : UserStats × Botv1.JSONDatabase :=
  match db.get_user_stats user_id guild_id with
  | some stats => (stats, db)
  | none =>
    let stats : UserStats :=
      { user_id := user_id
        guild_id := guild_id
        quests_completed := 0
        quests_accepted := 0
        quests_rejected := 0
        first_quest_date := now
        last_quest_date := now }
    (stats, db.save_user_stats stats)

/-- `user_stats.py` lines 35-40, `update_quest_accepted`: load-or-create,
`quests_accepted += 1`, `last_quest_date = now`, persist. -/
def UserStatsManager.update_quest_accepted (db : Botv1.JSONDatabase)
    (user_id guild_id : Int) (now : Nat) : Botv1.JSONDatabase :=
  let r := UserStatsManager.get_user_stats db user_id guild_id now
  let stats := { r.1 with quests_accepted := r.1.quests_accepted + 1, last_quest_date := now }
  r.2.save_user_stats stats

/-- `user_stats.py` lines 42-47, `update_quest_completed`: load-or-create,
`quests_completed += 1`, `last_quest_date = now`, persist. -/
def UserStatsManager.update_quest_completed (db : Botv1.JSONDatabase)
    (user_id guild_id : Int) (now : Nat) : Botv1.JSONDatabase :=
  let r := UserStatsManager.get_user_stats db user_id guild_id now
  let stats := { r.1 with quests_completed := r.1.quests_completed + 1, last_quest_date := now }
  r.2.save_user_stats stats

/-- `user_stats.py` lines 49-54, `update_quest_rejected`: load-or-create,
`quests_rejected += 1`, `last_quest_date = now`, persist. -/
def UserStatsManager.update_quest_rejected (db : Botv1.JSONDatabase)
    (user_id guild_id : Int) (now : Nat) : Botv1.JSONDatabase :=
  let r := UserStatsManager.get_user_stats db user_id guild_id now
  let stats := { r.1 with quests_rejected := r.1.quests_rejected + 1, last_quest_date := now }
  r.2.save_user_stats stats

/-- The kinds of statistics-recording events
(`RecordAccepted` / `RecordCompleted` / `RecordRejected`). -/
inductive StatsKind where
  | accepted
  | completed
  | rejected
deriving DecidableEq

/-- One statistics-recording call: its kind, target user and guild, and the
time at which it runs. -/
structure StatsOp where
  kind : StatsKind
  user_id : Int
  guild_id : Int
  now : Nat

/-- Dispatch one statistics-recording call to the matching
`UserStatsManager` update. -/
def applyStatsOp (db : JSONDatabase) (op : StatsOp) : JSONDatabase :=
  match op.kind with
  | .accepted => UserStatsManager.update_quest_accepted db op.user_id op.guild_id op.now
  | .completed => UserStatsManager.update_quest_completed db op.user_id op.guild_id op.now
  | .rejected => UserStatsManager.update_quest_rejected db op.user_id op.guild_id op.now

/-- The observable counters of a (user, guild) pair:
`(quests_accepted, quests_completed, quests_rejected)`, all zero when no
record exists (the lazily created record starts at zero). -/
def viewStats (db : JSONDatabase) (user_id guild_id : Int) : Nat × Nat × Nat :=
  match db.get_user_stats user_id guild_id with
  | some s => (s.quests_accepted, s.quests_completed, s.quests_rejected)
  | none => (0, 0, 0)

/-- Pointwise order on the three counters. -/
def statsLe (a b : Nat × Nat × Nat) : Prop :=
  a.1 ≤ b.1 ∧ a.2.1 ≤ b.2.1 ∧ a.2.2 ≤ b.2.2

/-- Store invariant maintained by `save_user_stats`: every stats entry is
keyed by the ids stored in the record (the key is
`f"{stats.user_id}_{stats.guild_id}"`). -/
def statsCoherent (db : JSONDatabase) : Prop :=
  ∀ e ∈ db.user_stats, e.1 = (e.2.user_id, e.2.guild_id)

/-- Store invariant maintained by `save_quest_progress`: every progress
entry is keyed by the ids stored in the record (the key is
`f"{progress.user_id}_{progress.quest_id}"`). -/
def progressCoherent (db : JSONDatabase) : Prop :=
  ∀ e ∈ db.quest_progress, e.1 = (e.2.user_id, e.2.quest_id)

/-- Store invariant maintained by the lifecycle engine: a progress record is
only ever created for an existing quest, and `delete_quest` cascades, so
every progress record's quest is present. -/
def progressHasQuest (db : JSONDatabase) : Prop :=
  ∀ e ∈ db.quest_progress, (db.get_quest e.2.quest_id).isSome

/-! ### Concrete sample states used by the witnesses -/

/-- A quest with no role requirement, available, in guild 10. -/
def sampleQuest : Quest :=
  { quest_id := "q1", title := "t", description := "d", creator_id := 1, guild_id := 10 }

/-- A quest requiring role 5. -/
def roleQuest : Quest :=
  { quest_id := "q2", title := "t", description := "d", creator_id := 1, guild_id := 10,
    required_role_ids := [5] }

/-- A store holding the two sample quests and no progress. -/
def sampleDB : Botv1.JSONDatabase :=
  { quests := [("q1", sampleQuest), ("q2", roleQuest)] }

/-- A rejected progress record for the sample quest, last attempted at
time 100. -/
def rejectedProgress : QuestProgress :=
  { quest_id := "q1", user_id := 7, guild_id := 10, status := "rejected",
    accepted_at := some 100 }

/-- A store where user 7 was rejected on the sample quest. -/
def rejectedDB : Botv1.JSONDatabase :=
  { quests := [("q1", sampleQuest)],
    quest_progress := [((7, "q1"), rejectedProgress)] }

/-- An `accepted` progress record of user 7 on the sample quest. -/
def acceptedProgress : QuestProgress :=
  { quest_id := "q1", user_id := 7, guild_id := 10, status := "accepted",
    accepted_at := some 100 }

/-- A store where user 7 has the sample quest in `accepted` state. -/
def acceptedDB : Botv1.JSONDatabase :=
  { quests := [("q1", sampleQuest)],
    quest_progress := [((7, "q1"), acceptedProgress)] }

/-- A `completed` progress record of user 7 on the sample quest, awaiting
approval. -/
def completedProgress : QuestProgress :=
  { quest_id := "q1", user_id := 7, guild_id := 10, status := "completed",
    accepted_at := some 100, completed_at := some 150, proof_text := "done",
    approval_status := "pending" }

/-- A store where user 7 has the sample quest in `completed` state. -/
def completedDB : Botv1.JSONDatabase :=
  { quests := [("q1", sampleQuest)],
    quest_progress := [((7, "q1"), completedProgress)] }

/-- A store with some user statistics in guilds 10 and 11, with a tie on
both counters between users 1 and 3. -/
def statsDB : Botv1.JSONDatabase :=
  { user_stats :=
      [((1, 10), { user_id := 1, guild_id := 10, quests_completed := 2, quests_accepted := 5 }),
       ((2, 10), { user_id := 2, guild_id := 10, quests_completed := 3, quests_accepted := 1 }),
       ((3, 10), { user_id := 3, guild_id := 10, quests_completed := 2, quests_accepted := 5 }),
       ((4, 11), { user_id := 4, guild_id := 11, quests_completed := 9, quests_accepted := 9 }),
       ((5, 10), { user_id := 5, guild_id := 10, quests_completed := 2, quests_accepted := 7 })] }

/-! ### Generic lemmas about the dict model -/

theorem dictLookup_dictInsert_self {K V : Type} [DecidableEq K] (k : K) (v : V)
    (l : List (K × V)) : dictLookup k (dictInsert k v l) = some v := by
  induction l with
  | nil => simp [dictInsert, dictLookup]
  | cons e rest ih =>
    by_cases h : e.1 = k <;> simp [dictInsert, dictLookup, h, ih]

theorem dictLookup_dictInsert_ne {K V : Type} [DecidableEq K] {k k' : K} (v : V)
    (l : List (K × V)) (h : k' ≠ k) :
    dictLookup k' (dictInsert k v l) = dictLookup k' l := by
  induction l with
  | nil => simp [dictInsert, dictLookup, Ne.symm h]
  | cons e rest ih =>
    by_cases he : e.1 = k
    · subst he
      simp [dictInsert, dictLookup, Ne.symm h]
    · simp only [dictInsert, if_neg he]
      by_cases he' : e.1 = k' <;> simp [dictLookup, he', ih]

theorem dictLookup_eq_none {K V : Type} [DecidableEq K] {k : K} {l : List (K × V)}
    (h : ∀ e ∈ l, e.1 ≠ k) : dictLookup k l = none := by
  induction l with
  | nil => rfl
  | cons e rest ih =>
    simp only [dictLookup, if_neg (h e (List.mem_cons_self e rest))]
    exact ih fun e' he' => h e' (List.mem_cons_of_mem e he')

theorem mem_of_dictLookup_eq_some {K V : Type} [DecidableEq K] {k : K} {v : V}
    {l : List (K × V)} (h : dictLookup k l = some v) : (k, v) ∈ l := by
  induction l with
  | nil => simp [dictLookup] at h
  | cons e rest ih =>
    obtain ⟨k1, v1⟩ := e
    by_cases he : k1 = k
    · subst he
      simp only [dictLookup, if_true, eq_self_iff_true, if_pos, Option.some.injEq] at h
      rw [show v1 = v from by simpa using h]
      exact List.mem_cons_self _ _
    · simp only [dictLookup, if_neg he] at h
      exact List.mem_cons_of_mem _ (ih h)

theorem mem_dictInsert {K V : Type} [DecidableEq K] {k : K} {v : V} {e : K × V}
    {l : List (K × V)} (h : e ∈ dictInsert k v l) : e = (k, v) ∨ e ∈ l := by
  induction l with
  | nil => simpa [dictInsert] using h
  | cons e' rest ih =>
    by_cases he : e'.1 = k
    · simp only [dictInsert, if_pos he, List.mem_cons] at h
      rcases h with h | h
      · exact Or.inl h
      · exact Or.inr (List.mem_cons_of_mem e' h)
    · simp only [dictInsert, if_neg he, List.mem_cons] at h
      rcases h with h | h
      · exact Or.inr (h ▸ List.mem_cons_self e' rest)
      · rcases ih h with h' | h'
        · exact Or.inl h'
        · exact Or.inr (List.mem_cons_of_mem e' h')

theorem countKey_eq_zero {K V : Type} [DecidableEq K] {k : K} {l : List (K × V)}
    (h : ∀ e ∈ l, e.1 ≠ k) : countKey k l = 0 := by
  unfold countKey
  rw [List.filter_eq_nil_iff.mpr]
  · rfl
  · intro e he
    simpa using h e he

theorem countKey_dictInsert {K V : Type} [DecidableEq K] (k : K) (v : V)
    {l : List (K × V)} (h : (l.map Prod.fst).Nodup) :
    countKey k (dictInsert k v l) = 1 := by
  induction l with
  | nil => simp [dictInsert, countKey]
  | cons e rest ih =>
    rw [List.map_cons, List.nodup_cons] at h
    by_cases he : e.1 = k
    · subst he
      simp only [dictInsert, if_pos rfl, countKey, List.filter_cons, decide_eq_true rfl]
      simp only [if_pos trivial]
      have hz : countKey e.1 rest = 0 := by
        apply countKey_eq_zero
        intro e' he' hk
        exact h.1 (hk ▸ List.mem_map_of_mem Prod.fst he')
      simpa [countKey] using hz
    · simp only [dictInsert, if_neg he, countKey, List.filter_cons]
      rw [if_neg (by simpa using he)]
      exact ih h.2

/-! ### Small frame facts about the store operations -/

theorem save_quest_progress_quests (db : Botv1.JSONDatabase) (p : QuestProgress) :
    (db.save_quest_progress p).quests = db.quests := rfl

theorem get_quest_save_quest_progress (db : Botv1.JSONDatabase) (p : QuestProgress)
    (quest_id : String) : (db.save_quest_progress p).get_quest quest_id = db.get_quest quest_id :=
  rfl

theorem get_user_quest_progress_save_self (db : Botv1.JSONDatabase) (p : QuestProgress) :
    (db.save_quest_progress p).get_user_quest_progress p.user_id p.quest_id = some p :=
  dictLookup_dictInsert_self _ _ _

/-! ### Case analysis of `accept_quest` -/

/-- The role-check tail of `accept_quest` either fails with the
missing-role error and an untouched store, or creates and saves the new
progress record. -/
theorem accept_quest_roles_disj (db : Botv1.JSONDatabase) (quest : Quest)
    (quest_id : String) (user_id : Int) (user_role_ids : List Int)
    (accepted_channel_id : Option Int) (now : Nat) :
    ((QuestManager.accept_quest_roles db quest quest_id user_id user_role_ids
          accepted_channel_id now).1.1 = none
      ∧ (QuestManager.accept_quest_roles db quest quest_id user_id user_role_ids
          accepted_channel_id now).2 = db)
    ∨ QuestManager.accept_quest_roles db quest quest_id user_id user_role_ids
          accepted_channel_id now
        = ((some (QuestManager.new_progress quest quest_id user_id accepted_channel_id now), ""),
           db.save_quest_progress
             (QuestManager.new_progress quest quest_id user_id accepted_channel_id now)) := by
  unfold QuestManager.accept_quest_roles QuestManager.accept_quest_create
  split
  · split
    · exact Or.inl ⟨rfl, rfl⟩
    · exact Or.inr rfl
  · exact Or.inr rfl

/-- `accept_quest` either fails (result `None` with some error, store
untouched) or succeeds on an existing available quest, returning and
persisting exactly the record of `QuestManager.new_progress`. -/
theorem accept_quest_disj (db : Botv1.JSONDatabase) (quest_id : String)
    (user_id : Int) (user_role_ids : List Int) (accepted_channel_id : Option Int)
    (now : Nat) :
    ((QuestManager.accept_quest db quest_id user_id user_role_ids
          accepted_channel_id now).1.1 = none
      ∧ (QuestManager.accept_quest db quest_id user_id user_role_ids
          accepted_channel_id now).2 = db)
    ∨ ∃ quest, db.get_quest quest_id = some quest
        ∧ quest.status = QuestStatus.AVAILABLE
        ∧ QuestManager.accept_quest db quest_id user_id user_role_ids
              accepted_channel_id now
            = ((some (QuestManager.new_progress quest quest_id user_id accepted_channel_id now), ""),
               db.save_quest_progress
                 (QuestManager.new_progress quest quest_id user_id accepted_channel_id now)) := by
  unfold QuestManager.accept_quest
  split
  · exact Or.inl ⟨rfl, rfl⟩
  next quest hq =>
    split
    next hst => exact Or.inl ⟨rfl, rfl⟩
    next hst =>
      have hav : quest.status = QuestStatus.AVAILABLE := by
        simpa using hst
      have hroles := fun db' =>
        accept_quest_roles_disj db' quest quest_id user_id user_role_ids accepted_channel_id now
      split
      next ep hp =>
        split
        · exact Or.inl ⟨rfl, rfl⟩
        · split
          · split
            next la hla =>
              dsimp only
              split
              · exact Or.inl ⟨rfl, rfl⟩
              · rcases hroles db with ⟨h1, h2⟩ | h
                · exact Or.inl ⟨h1, h2⟩
                · exact Or.inr ⟨quest, hq, hav, h⟩
            next hla =>
              rcases hroles db with ⟨h1, h2⟩ | h
              · exact Or.inl ⟨h1, h2⟩
              · exact Or.inr ⟨quest, hq, hav, h⟩
          · rcases hroles db with ⟨h1, h2⟩ | h
            · exact Or.inl ⟨h1, h2⟩
            · exact Or.inr ⟨quest, hq, hav, h⟩
      next hp =>
        rcases hroles db with ⟨h1, h2⟩ | h
        · exact Or.inl ⟨h1, h2⟩
        · exact Or.inr ⟨quest, hq, hav, h⟩

theorem get_user_quest_progress_save_new (db : Botv1.JSONDatabase) (quest : Quest)
    (quest_id : String) (user_id : Int) (accepted_channel_id : Option Int) (now : Nat) :
    (db.save_quest_progress
        (QuestManager.new_progress quest quest_id user_id accepted_channel_id now)).get_user_quest_progress
        user_id quest_id
      = some (QuestManager.new_progress quest quest_id user_id accepted_channel_id now) :=
  get_user_quest_progress_save_self db _

/-! ### The claims -/

/-- C1. `AcceptQuest` checks, in order: unknown quest ⇒ `NotFound`
("Quest not found!"), quest not `available` ⇒ `NotAvailable`, existing
progress with status `accepted`/`completed` ⇒ `AlreadyActive`; every failure
returns the store unchanged; success persists a new `accepted` record, after
which an identical second call (at any time) returns `AlreadyActive` with the
store unchanged and exactly one progress record exists for the pair. -/
theorem accept_quest_failure_modes_and_uniqueness
    (db : Botv1.JSONDatabase) (quest_id : String) (user_id : Int)
    (user_role_ids : List Int) (accepted_channel_id : Option Int) (now now2 : Nat)
    (hwf : (db.quest_progress.map Prod.fst).Nodup) :
    (db.get_quest quest_id = none →
      QuestManager.accept_quest db quest_id user_id user_role_ids accepted_channel_id now
        = ((none, "Quest not found!"), db))
    ∧ (∀ quest, db.get_quest quest_id = some quest → quest.status ≠ "available" →
        QuestManager.accept_quest db quest_id user_id user_role_ids accepted_channel_id now
          = ((none, "Quest is not available for acceptance!"), db))
    ∧ (∀ quest ep, db.get_quest quest_id = some quest → quest.status = "available" →
        db.get_user_quest_progress user_id quest_id = some ep →
        ep.status = "accepted" ∨ ep.status = "completed" →
        QuestManager.accept_quest db quest_id user_id user_role_ids accepted_channel_id now
          = ((none, "You have already accepted this quest!"), db))
    ∧ ((QuestManager.accept_quest db quest_id user_id user_role_ids
            accepted_channel_id now).1.1 = none →
        (QuestManager.accept_quest db quest_id user_id user_role_ids
            accepted_channel_id now).2 = db)
    ∧ (∀ p, (QuestManager.accept_quest db quest_id user_id user_role_ids
            accepted_channel_id now).1.1 = some p →
        p.status = "accepted"
        ∧ ((QuestManager.accept_quest db quest_id user_id user_role_ids
              accepted_channel_id now).2).get_user_quest_progress user_id quest_id = some p
        ∧ QuestManager.accept_quest
              ((QuestManager.accept_quest db quest_id user_id user_role_ids
                  accepted_channel_id now).2) quest_id user_id user_role_ids
              accepted_channel_id now2
            = ((none, "You have already accepted this quest!"),
               (QuestManager.accept_quest db quest_id user_id user_role_ids
                  accepted_channel_id now).2)
        ∧ countKey (user_id, quest_id)
            ((QuestManager.accept_quest db quest_id user_id user_role_ids
                accepted_channel_id now).2).quest_progress = 1) := by
  refine ⟨?_, ?_, ?_, ?_, ?_⟩
  · intro h
    simp [QuestManager.accept_quest, h]
  · intro quest hq hst
    simp [QuestManager.accept_quest, hq, QuestStatus.AVAILABLE, hst]
  · intro quest ep hq hav hp hor
    have hb : (ep.status == QuestStatus.ACCEPTED || ep.status == QuestStatus.COMPLETED) = true := by
      rcases hor with h | h <;>
        simp [h, QuestStatus.ACCEPTED, QuestStatus.COMPLETED]
    simp [QuestManager.accept_quest, hq, hp, hav, QuestStatus.AVAILABLE, hb]
  · intro hnone
    rcases accept_quest_disj db quest_id user_id user_role_ids accepted_channel_id now with
      ⟨_, h2⟩ | ⟨quest, _, _, heq⟩
    · exact h2
    · rw [heq] at hnone
      simp at hnone
  · intro p hp
    rcases accept_quest_disj db quest_id user_id user_role_ids accepted_channel_id now with
      ⟨h1, _⟩ | ⟨quest, hq, hav, heq⟩
    · rw [hp] at h1
      simp at h1
    · rw [heq] at hp
      obtain rfl : QuestManager.new_progress quest quest_id user_id accepted_channel_id now = p := by
        simpa using hp
      refine ⟨rfl, ?_, ?_, ?_⟩
      · rw [heq]
        exact get_user_quest_progress_save_new db quest quest_id user_id accepted_channel_id now
      · rw [heq]
        have hstat : (QuestManager.new_progress quest quest_id user_id
            accepted_channel_id now).status = "accepted" := rfl
        simp [QuestManager.accept_quest, get_quest_save_quest_progress, hq, hav,
          QuestStatus.AVAILABLE, QuestStatus.ACCEPTED, hstat,
          get_user_quest_progress_save_new]
      · rw [heq]
        exact countKey_dictInsert _ _ hwf

/-- Concrete run for C1: accepting the sample quest persists exactly one
record for the pair, and an identical second call answers `AlreadyActive`
leaving the store as it was. -/
theorem accept_quest_failure_modes_and_uniqueness_witness :
    countKey ((7 : Int), "q1")
        ((QuestManager.accept_quest sampleDB "q1" 7 [] none 100).2).quest_progress = 1
    ∧ QuestManager.accept_quest ((QuestManager.accept_quest sampleDB "q1" 7 [] none 100).2)
          "q1" 7 [] none 200
        = ((none, "You have already accepted this quest!"),
           (QuestManager.accept_quest sampleDB "q1" 7 [] none 100).2) := by
  have h := (accept_quest_failure_modes_and_uniqueness sampleDB "q1" 7 [] none 100 200
      (by decide)).2.2.2.2 (QuestManager.new_progress sampleQuest "q1" 7 none 100) (by rfl)
  exact ⟨h.2.2.2, h.2.2.1⟩

/-- When the role requirement is satisfiable (no required roles, no caller
roles given, or a required role is held), the role-check tail reduces to the
creation tail. -/
theorem accept_quest_roles_pass (db : Botv1.JSONDatabase) (quest : Quest)
    (quest_id : String) (user_id : Int) (user_role_ids : List Int)
    (accepted_channel_id : Option Int) (now : Nat)
    (h : quest.required_role_ids = [] ∨ user_role_ids = []
        ∨ user_has_required_roles user_role_ids quest.required_role_ids = true) :
    QuestManager.accept_quest_roles db quest quest_id user_id user_role_ids
        accepted_channel_id now
      = QuestManager.accept_quest_create db quest quest_id user_id accepted_channel_id now := by
  unfold QuestManager.accept_quest_roles
  rcases h with h | h | h
  · simp [h]
  · simp [h]
  · split
    · simp [h]
    · rfl

/-- C2. With a `rejected` progress record whose last attempt was at
`last_attempt`: accepting strictly before `last_attempt + 24h` fails with
`CooldownActive`, whose message carries the remaining whole hours rounded
down (`(cooldownEnd - now) / 3600`); accepting at or after the boundary
succeeds and persists a fresh `accepted` record for the pair. -/
theorem accept_quest_cooldown (db : Botv1.JSONDatabase) (quest_id : String)
    (user_id : Int) (user_role_ids : List Int) (accepted_channel_id : Option Int)
    (now last_attempt : Nat) (quest : Quest) (ep : QuestProgress)
    (hq : db.get_quest quest_id = some quest)
    (hav : quest.status = "available")
    (hp : db.get_user_quest_progress user_id quest_id = some ep)
    (hrej : ep.status = "rejected")
    (hla : ep.accepted_at = some last_attempt)
    (hrole : quest.required_role_ids = [] ∨ user_role_ids = []
        ∨ user_has_required_roles user_role_ids quest.required_role_ids = true) :
    (now < last_attempt + 24 * 3600 →
      QuestManager.accept_quest db quest_id user_id user_role_ids accepted_channel_id now
        = ((none, "You must wait " ++ toString ((last_attempt + 24 * 3600 - now) / 3600)
              ++ " hours before attempting this quest again!"), db))
    ∧ (last_attempt + 24 * 3600 ≤ now →
      QuestManager.accept_quest db quest_id user_id user_role_ids accepted_channel_id now
          = ((some (QuestManager.new_progress quest quest_id user_id accepted_channel_id now), ""),
             db.save_quest_progress
               (QuestManager.new_progress quest quest_id user_id accepted_channel_id now))
        ∧ (QuestManager.new_progress quest quest_id user_id accepted_channel_id now).status
            = "accepted"
        ∧ ((QuestManager.accept_quest db quest_id user_id user_role_ids
              accepted_channel_id now).2).get_user_quest_progress user_id quest_id
            = some (QuestManager.new_progress quest quest_id user_id accepted_channel_id now)) := by
  have hpass := accept_quest_roles_pass db quest quest_id user_id user_role_ids
    accepted_channel_id now hrole
  constructor
  · intro hlt
    simp [QuestManager.accept_quest, hq, hav, hp, hrej, hla, hlt,
      QuestStatus.AVAILABLE, QuestStatus.ACCEPTED, QuestStatus.COMPLETED,
      QuestStatus.REJECTED]
  · intro hge
    have hnlt : ¬ now < last_attempt + 24 * 3600 := not_lt.mpr hge
    have heq : QuestManager.accept_quest db quest_id user_id user_role_ids
        accepted_channel_id now
        = QuestManager.accept_quest_create db quest quest_id user_id accepted_channel_id now := by
      simp [QuestManager.accept_quest, hq, hav, hp, hrej, hla, hnlt,
        QuestStatus.AVAILABLE, QuestStatus.ACCEPTED, QuestStatus.COMPLETED,
        QuestStatus.REJECTED, hpass]
    refine ⟨?_, rfl, ?_⟩
    · rw [heq]
      rfl
    · rw [heq]
      exact get_user_quest_progress_save_new db quest quest_id user_id accepted_channel_id now

/-- Concrete run for C2: after a rejection stamped at time 100, accepting at
time 3700 (23h remaining) is refused with the 23-hour message, and accepting
at 86500 (past the 24-hour boundary) yields a fresh `accepted` record. -/
theorem accept_quest_cooldown_witness :
    QuestManager.accept_quest rejectedDB "q1" 7 [] none 3700
      = ((none, "You must wait 23 hours before attempting this quest again!"), rejectedDB)
    ∧ (QuestManager.accept_quest rejectedDB "q1" 7 [] none 86500).1.1
      = some (QuestManager.new_progress sampleQuest "q1" 7 none 86500) := by
  constructor
  · have h := (accept_quest_cooldown rejectedDB "q1" 7 [] none 3700 100 sampleQuest
      rejectedProgress (by decide) (by decide) (by decide) (by decide) (by decide)
      (Or.inl (by decide))).1 (by decide)
    rw [h]
    decide
  · have h := (accept_quest_cooldown rejectedDB "q1" 7 [] none 86500 100 sampleQuest
      rejectedProgress (by decide) (by decide) (by decide) (by decide) (by decide)
      (Or.inl (by decide))).2 (by decide)
    rw [h.1]

/-- C3. `CompleteQuest` fails with the absent result and no mutation unless
the pair's progress record exists with status exactly `accepted`; on success
it sets status `completed`, `completed_at`, the proof fields and the
`"pending"` approval tag, persists exactly that record, and returns it. -/
theorem complete_quest_requires_accepted (db : Botv1.JSONDatabase) (quest_id : String)
    (user_id : Int) (proof_text : String) (proof_image_urls : List String) (now : Nat) :
    (db.get_user_quest_progress user_id quest_id = none →
      QuestManager.complete_quest db quest_id user_id proof_text proof_image_urls now
        = (none, db))
    ∧ (∀ p, db.get_user_quest_progress user_id quest_id = some p → p.status ≠ "accepted" →
        QuestManager.complete_quest db quest_id user_id proof_text proof_image_urls now
          = (none, db))
    ∧ (∀ p, db.get_user_quest_progress user_id quest_id = some p → p.status = "accepted" →
        QuestManager.complete_quest db quest_id user_id proof_text proof_image_urls now
          = (some { p with
                status := "completed"
                completed_at := some now
                proof_text := proof_text
                proof_image_urls := proof_image_urls
                approval_status := "pending" },
             db.save_quest_progress { p with
                status := "completed"
                completed_at := some now
                proof_text := proof_text
                proof_image_urls := proof_image_urls
                approval_status := "pending" })) := by
  refine ⟨?_, ?_, ?_⟩
  · intro h
    simp [QuestManager.complete_quest, h]
  · intro p hp hst
    simp [QuestManager.complete_quest, hp, QuestStatus.ACCEPTED, hst]
  · intro p hp hst
    simp [QuestManager.complete_quest, hp, QuestStatus.ACCEPTED, QuestStatus.COMPLETED, hst]

/-- Concrete run for C3: completing an `accepted` record succeeds with the
`"pending"` tag, and a second completion of the now-`completed` record fails
without touching the store. -/
theorem complete_quest_requires_accepted_witness :
    (QuestManager.complete_quest acceptedDB "q1" 7 "done" [] 150).1
      = some { acceptedProgress with
          status := "completed", completed_at := some 150, proof_text := "done",
          proof_image_urls := [], approval_status := "pending" }
    ∧ QuestManager.complete_quest
          (QuestManager.complete_quest acceptedDB "q1" 7 "done" [] 150).2 "q1" 7 "x" [] 200
        = (none, (QuestManager.complete_quest acceptedDB "q1" 7 "done" [] 150).2) := by
  constructor
  · have h := (complete_quest_requires_accepted acceptedDB "q1" 7 "done" [] 150).2.2
      acceptedProgress (by decide) (by decide)
    rw [h]
  · exact (complete_quest_requires_accepted
        (QuestManager.complete_quest acceptedDB "q1" 7 "done" [] 150).2 "q1" 7 "x" [] 200).2.1
      { acceptedProgress with
          status := "completed", completed_at := some 150, proof_text := "done",
          proof_image_urls := [], approval_status := "pending" }
      (by decide) (by decide)

/-- C4. `ApproveQuest` succeeds iff the pair's progress record exists with
status exactly `completed` (otherwise it returns the absent result and
mutates nothing); on success the status becomes `approved`/`rejected`
according to the flag, the record is persisted, and the approval-status tag
always equals the resulting status. -/
theorem approve_quest_spec (db : Botv1.JSONDatabase) (quest_id : String)
    (user_id : Int) (approved : Bool) :
    ((QuestManager.approve_quest db quest_id user_id approved).1.isSome
        ↔ ∃ p, db.get_user_quest_progress user_id quest_id = some p
            ∧ p.status = "completed")
    ∧ ((QuestManager.approve_quest db quest_id user_id approved).1 = none →
        (QuestManager.approve_quest db quest_id user_id approved).2 = db)
    ∧ (∀ p, db.get_user_quest_progress user_id quest_id = some p → p.status = "completed" →
        QuestManager.approve_quest db quest_id user_id approved
          = (some (if approved then
                { p with status := "approved", approval_status := "approved" }
              else
                { p with status := "rejected", approval_status := "rejected" }),
             db.save_quest_progress (if approved then
                { p with status := "approved", approval_status := "approved" }
              else
                { p with status := "rejected", approval_status := "rejected" })))
    ∧ (∀ p2, (QuestManager.approve_quest db quest_id user_id approved).1 = some p2 →
        p2.approval_status = p2.status
        ∧ (approved = true → p2.status = "approved")
        ∧ (approved = false → p2.status = "rejected")) := by
  have hmain : ∀ p, db.get_user_quest_progress user_id quest_id = some p →
      p.status = "completed" →
      QuestManager.approve_quest db quest_id user_id approved
        = (some (if approved then
              { p with status := "approved", approval_status := "approved" }
            else
              { p with status := "rejected", approval_status := "rejected" }),
           db.save_quest_progress (if approved then
              { p with status := "approved", approval_status := "approved" }
            else
              { p with status := "rejected", approval_status := "rejected" })) := by
    intro p hp hst
    cases approved <;>
      simp [QuestManager.approve_quest, hp, QuestStatus.COMPLETED, QuestStatus.APPROVED,
        QuestStatus.REJECTED, hst]
  refine ⟨⟨?_, ?_⟩, ?_, hmain, ?_⟩
  · intro h
    cases hp : db.get_user_quest_progress user_id quest_id with
    | none => simp [QuestManager.approve_quest, hp] at h
    | some p =>
      by_cases hst : p.status = "completed"
      · exact ⟨p, rfl, hst⟩
      · simp [QuestManager.approve_quest, hp, QuestStatus.COMPLETED, hst] at h
  · rintro ⟨p, hp, hst⟩
    rw [hmain p hp hst]
    cases approved <;> simp
  · intro hnone
    cases hp : db.get_user_quest_progress user_id quest_id with
    | none => simp [QuestManager.approve_quest, hp]
    | some p =>
      by_cases hst : p.status = "completed"
      · rw [hmain p hp hst] at hnone
        cases approved <;> simp at hnone
      · simp [QuestManager.approve_quest, hp, QuestStatus.COMPLETED, hst]
  · intro p2 h
    cases hp : db.get_user_quest_progress user_id quest_id with
    | none => simp [QuestManager.approve_quest, hp] at h
    | some p =>
      by_cases hst : p.status = "completed"
      · rw [hmain p hp hst] at h
        cases approved
        · simp at h
          subst h
          exact ⟨rfl, by simp, fun _ => rfl⟩
        · simp at h
          subst h
          exact ⟨rfl, fun _ => rfl, by simp⟩
      · simp [QuestManager.approve_quest, hp, QuestStatus.COMPLETED, hst] at h

/-- Concrete run for C4: approving the completed sample record marks it
`approved`/`approved`; rejecting marks it `rejected`/`rejected`. -/
theorem approve_quest_spec_witness :
    QuestManager.approve_quest completedDB "q1" 7 true
      = (some { completedProgress with status := "approved", approval_status := "approved" },
         Botv1.JSONDatabase.save_quest_progress completedDB
           { completedProgress with status := "approved", approval_status := "approved" })
    ∧ (QuestManager.approve_quest completedDB "q1" 7 false).1
      = some { completedProgress with status := "rejected", approval_status := "rejected" } := by
  constructor
  · have h := (approve_quest_spec completedDB "q1" 7 true).2.2.1 completedProgress
      (by decide) (by decide)
    simpa using h
  · have h := (approve_quest_spec completedDB "q1" 7 false).2.2.1 completedProgress
      (by decide) (by decide)
    rw [h]
    simp

/-- With an available quest and no prior progress, `accept_quest` reduces to
its role-check tail. -/
theorem accept_quest_to_roles (db : Botv1.JSONDatabase) (quest_id : String)
    (user_id : Int) (user_role_ids : List Int) (accepted_channel_id : Option Int)
    (now : Nat) (quest : Quest)
    (hq : db.get_quest quest_id = some quest)
    (hav : quest.status = "available")
    (hprog : db.get_user_quest_progress user_id quest_id = none) :
    QuestManager.accept_quest db quest_id user_id user_role_ids accepted_channel_id now
      = QuestManager.accept_quest_roles db quest quest_id user_id user_role_ids
          accepted_channel_id now := by
  simp [QuestManager.accept_quest, hq, hav, hprog, QuestStatus.AVAILABLE]

/-- C5. When the quest requires roles and the caller's role list is provided
(non-empty): holding at least one required role (the sets intersect — union
semantics) lets the call through to success, while holding none of them
yields `MissingRole` with the store unchanged. -/
theorem accept_quest_role_union (db : Botv1.JSONDatabase) (quest_id : String)
    (user_id : Int) (user_role_ids : List Int) (accepted_channel_id : Option Int)
    (now : Nat) (quest : Quest)
    (hq : db.get_quest quest_id = some quest)
    (hav : quest.status = "available")
    (hprog : db.get_user_quest_progress user_id quest_id = none)
    (hreq : quest.required_role_ids ≠ [])
    (hprov : user_role_ids ≠ []) :
    ((∃ r ∈ quest.required_role_ids, r ∈ user_role_ids) →
      QuestManager.accept_quest db quest_id user_id user_role_ids accepted_channel_id now
        = ((some (QuestManager.new_progress quest quest_id user_id accepted_channel_id now), ""),
           db.save_quest_progress
             (QuestManager.new_progress quest quest_id user_id accepted_channel_id now)))
    ∧ ((∀ r ∈ quest.required_role_ids, r ∉ user_role_ids) →
      QuestManager.accept_quest db quest_id user_id user_role_ids accepted_channel_id now
        = ((none, "You don't have the required roles for this quest!"), db)) := by
  have hstep := accept_quest_to_roles db quest_id user_id user_role_ids
    accepted_channel_id now quest hq hav hprog
  constructor
  · rintro ⟨r, hrmem, hrin⟩
    have hroles : user_has_required_roles user_role_ids quest.required_role_ids = true := by
      simp only [user_has_required_roles]
      rw [if_neg (by simpa [List.isEmpty_iff] using hreq), List.any_eq_true]
      exact ⟨r, hrmem, by simpa using hrin⟩
    rw [hstep, accept_quest_roles_pass db quest quest_id user_id user_role_ids
      accepted_channel_id now (Or.inr (Or.inr hroles))]
    rfl
  · intro hnone
    have hroles : user_has_required_roles user_role_ids quest.required_role_ids = false := by
      simp only [user_has_required_roles]
      rw [if_neg (by simpa [List.isEmpty_iff] using hreq), List.any_eq_false]
      intro r hrmem hrin
      exact hnone r hrmem (by simpa using hrin)
    rw [hstep]
    unfold QuestManager.accept_quest_roles
    rw [if_pos, if_pos]
    · simp [hroles]
    · simpa [List.isEmpty_iff] using And.intro hreq hprov

/-- Concrete run for C5: on a quest requiring role 5, a caller holding only
role 6 is refused with `MissingRole`, and a caller holding role 5 gets an
`accepted` record. -/
theorem accept_quest_role_union_witness :
    QuestManager.accept_quest sampleDB "q2" 7 [6] none 100
      = ((none, "You don't have the required roles for this quest!"), sampleDB)
    ∧ (QuestManager.accept_quest sampleDB "q2" 7 [5, 6] none 100).1.1
      = some (QuestManager.new_progress roleQuest "q2" 7 none 100) := by
  constructor
  · exact (accept_quest_role_union sampleDB "q2" 7 [6] none 100 roleQuest
      (by decide) (by decide) (by decide) (by decide) (by decide)).2 (by decide)
  · have h := (accept_quest_role_union sampleDB "q2" 7 [5, 6] none 100 roleQuest
      (by decide) (by decide) (by decide) (by decide) (by decide)).1 ⟨5, by decide, by decide⟩
    rw [h]

/-- C10. When the quest requires roles but the caller's role list is the
empty list, the role check is skipped entirely (Python's
`if quest.required_role_ids and user_role_ids:` is falsy) and the call
succeeds with a fresh `accepted` record instead of `MissingRole`. -/
theorem accept_quest_empty_roles_skips_check (db : Botv1.JSONDatabase)
    (quest_id : String) (user_id : Int) (accepted_channel_id : Option Int)
    (now : Nat) (quest : Quest)
    (hq : db.get_quest quest_id = some quest)
    (hav : quest.status = "available")
    (hprog : db.get_user_quest_progress user_id quest_id = none)
    (_hreq : quest.required_role_ids ≠ []) :
    QuestManager.accept_quest db quest_id user_id [] accepted_channel_id now
      = ((some (QuestManager.new_progress quest quest_id user_id accepted_channel_id now), ""),
         db.save_quest_progress
           (QuestManager.new_progress quest quest_id user_id accepted_channel_id now))
    ∧ (QuestManager.new_progress quest quest_id user_id accepted_channel_id now).status
        = "accepted" := by
  refine ⟨?_, rfl⟩
  rw [accept_quest_to_roles db quest_id user_id [] accepted_channel_id now quest hq hav hprog,
    accept_quest_roles_pass db quest quest_id user_id [] accepted_channel_id now
      (Or.inr (Or.inl rfl))]
  rfl

/-- Concrete run for C10: a caller with an empty role list accepts the
role-restricted quest successfully. -/
theorem accept_quest_empty_roles_skips_check_witness :
    (QuestManager.accept_quest sampleDB "q2" 7 [] none 100).1.1
      = some (QuestManager.new_progress roleQuest "q2" 7 none 100) := by
  have h := (accept_quest_empty_roles_skips_check sampleDB "q2" 7 none 100 roleQuest
    (by decide) (by decide) (by decide) (by decide)).1
  rw [h]

/-- C7. `AcceptQuest`, `CompleteQuest` and `ApproveQuest` never touch the
quest table — the quest record (in particular its status) is exactly as
`create_quest` left it, namely `available`; hence per-user progress on one
quest cannot affect what another user sees of the quest. -/
theorem quest_records_never_mutated (db : Botv1.JSONDatabase) (quest_id : String)
    (user_id : Int) (user_role_ids : List Int) (accepted_channel_id : Option Int)
    (now : Nat) (proof_text : String) (proof_image_urls : List String) (now2 : Nat)
    (approved : Bool) (new_id title description : String) (creator_id guild_id : Int)
    (requirements reward rank : String) (required_role_ids : List Int)
    (category : String) (now3 : Nat) :
    ((QuestManager.accept_quest db quest_id user_id user_role_ids
        accepted_channel_id now).2).quests = db.quests
    ∧ ((QuestManager.complete_quest db quest_id user_id proof_text
        proof_image_urls now2).2).quests = db.quests
    ∧ ((QuestManager.approve_quest db quest_id user_id approved).2).quests = db.quests
    ∧ (QuestManager.create_quest db new_id title description creator_id guild_id
        requirements reward rank required_role_ids category now3).1.status = "available"
    ∧ ((QuestManager.create_quest db new_id title description creator_id guild_id
        requirements reward rank required_role_ids category now3).2).get_quest new_id
      = some (QuestManager.create_quest db new_id title description creator_id guild_id
          requirements reward rank required_role_ids category now3).1 := by
  refine ⟨?_, ?_, ?_, rfl, ?_⟩
  · rcases accept_quest_disj db quest_id user_id user_role_ids accepted_channel_id now with
      ⟨_, h2⟩ | ⟨quest, _, _, heq⟩
    · rw [h2]
    · rw [heq]
      rfl
  · unfold QuestManager.complete_quest
    split
    · rfl
    · split
      · rfl
      · rfl
  · unfold QuestManager.approve_quest
    split
    · rfl
    · split
      · rfl
      · rfl
  · exact dictLookup_dictInsert_self _ _ _

/-- C8. `DeleteQuest` removes the quest and — on any store satisfying the
engine's invariants (progress keyed by its own ids, every progress record's
quest present) — every progress record of that quest: afterwards the quest
lookup and every `(user, quest)` progress lookup return absent; deleting an
absent quest id is not an error and still reports success. -/
theorem delete_quest_cascades (db : Botv1.JSONDatabase) (quest_id : String)
    (hkv : progressCoherent db) (hhq : progressHasQuest db) :
    (QuestManager.delete_quest db quest_id).1 = true
    ∧ ((QuestManager.delete_quest db quest_id).2).get_quest quest_id = none
    ∧ (∀ e ∈ ((QuestManager.delete_quest db quest_id).2).quest_progress,
        e.2.quest_id ≠ quest_id)
    ∧ (∀ user_id : Int,
        ((QuestManager.delete_quest db quest_id).2).get_user_quest_progress user_id quest_id
          = none) := by
  have hd : (QuestManager.delete_quest db quest_id).2 = db.delete_quest quest_id := rfl
  by_cases hpres : (dictLookup quest_id db.quests).isSome
  · have hdel : db.delete_quest quest_id =
        { db with
          quests := db.quests.filter (fun e => decide (e.1 ≠ quest_id)),
          quest_progress :=
            db.quest_progress.filter (fun e => decide (e.2.quest_id ≠ quest_id)) } := by
      unfold Botv1.JSONDatabase.delete_quest
      rw [if_pos hpres]
    have hmemprog : ∀ e ∈ (db.delete_quest quest_id).quest_progress,
        e.2.quest_id ≠ quest_id := by
      intro e he
      rw [hdel] at he
      simpa using (List.mem_filter.mp he).2
    refine ⟨rfl, ?_, ?_, ?_⟩
    · rw [hd, hdel]
      apply dictLookup_eq_none
      intro e he
      simpa using (List.mem_filter.mp he).2
    · rw [hd]
      exact hmemprog
    · intro user_id
      rw [hd]
      apply dictLookup_eq_none
      intro e he
      have hin : e ∈ db.quest_progress := by
        rw [hdel] at he
        exact (List.mem_filter.mp he).1
      rw [hkv e hin]
      intro hcontra
      exact hmemprog e he (congrArg Prod.snd hcontra)
  · have hnone : db.get_quest quest_id = none := by
      simpa [Botv1.JSONDatabase.get_quest] using Option.not_isSome_iff_eq_none.mp hpres
    have hdel : db.delete_quest quest_id = db := by
      unfold Botv1.JSONDatabase.delete_quest
      rw [if_neg hpres]
    have hmemprog : ∀ e ∈ db.quest_progress, e.2.quest_id ≠ quest_id := by
      intro e he hcontra
      have := hhq e he
      rw [hcontra, hnone] at this
      simp at this
    refine ⟨rfl, ?_, ?_, ?_⟩
    · rw [hd, hdel]
      exact hnone
    · rw [hd, hdel]
      exact hmemprog
    · intro user_id
      rw [hd, hdel]
      apply dictLookup_eq_none
      intro e he
      rw [hkv e he]
      intro hcontra
      exact hmemprog e he (congrArg Prod.snd hcontra)

/-- Concrete run for C8: deleting the sample quest removes the quest and the
existing progress of user 7; deleting an unknown id still reports success. -/
theorem delete_quest_cascades_witness :
    ((QuestManager.delete_quest acceptedDB "q1").2).get_quest "q1" = none
    ∧ ((QuestManager.delete_quest acceptedDB "q1").2).get_user_quest_progress 7 "q1" = none
    ∧ (QuestManager.delete_quest acceptedDB "zz").1 = true := by
  have h := delete_quest_cascades acceptedDB "q1"
    (by unfold progressCoherent; decide) (by unfold progressHasQuest; decide)
  have h2 := delete_quest_cascades acceptedDB "zz"
    (by unfold progressCoherent; decide) (by unfold progressHasQuest; decide)
  exact ⟨h.2.1, h.2.2.2 7, h2.1⟩

/-! ### Statistics lemmas (C6) -/

theorem statsCoherent_save_user_stats (db : Botv1.JSONDatabase) (s : UserStats)
    (hco : statsCoherent db) : statsCoherent (db.save_user_stats s) := by
  intro e he
  simp only [Botv1.JSONDatabase.save_user_stats] at he
  rcases mem_dictInsert he with rfl | hmem
  · rfl
  · exact hco e hmem

theorem statsCoherent_get_user_stats_snd (db : Botv1.JSONDatabase)
    (user_id guild_id : Int) (now : Nat) (hco : statsCoherent db) :
    statsCoherent (UserStatsManager.get_user_stats db user_id guild_id now).2 := by
  unfold UserStatsManager.get_user_stats
  cases hs : db.get_user_stats user_id guild_id with
  | some s => exact hco
  | none => exact statsCoherent_save_user_stats db _ hco

theorem statsCoherent_applyStatsOp (db : Botv1.JSONDatabase) (op : StatsOp)
    (hco : statsCoherent db) : statsCoherent (applyStatsOp db op) := by
  cases hk : op.kind <;>
    simp only [applyStatsOp, hk, UserStatsManager.update_quest_accepted,
      UserStatsManager.update_quest_completed, UserStatsManager.update_quest_rejected] <;>
    exact statsCoherent_save_user_stats _ _
      (statsCoherent_get_user_stats_snd db op.user_id op.guild_id op.now hco)

/-- The ids stored in a looked-up stats record match the lookup key, on a
coherent store. -/
theorem stats_ids_of_lookup (db : Botv1.JSONDatabase) (user_id guild_id : Int)
    (s : UserStats) (hco : statsCoherent db)
    (hs : db.get_user_stats user_id guild_id = some s) :
    s.user_id = user_id ∧ s.guild_id = guild_id := by
  have hmem : ((user_id, guild_id), s) ∈ db.user_stats :=
    mem_of_dictLookup_eq_some hs
  have := hco _ hmem
  simp only [Prod.mk.injEq] at this
  exact ⟨this.1.symm, this.2.symm⟩

theorem viewStats_update_accepted (db : Botv1.JSONDatabase) (user_id guild_id : Int)
    (now : Nat) (hco : statsCoherent db) :
    viewStats (UserStatsManager.update_quest_accepted db user_id guild_id now)
        user_id guild_id
      = ((viewStats db user_id guild_id).1 + 1, (viewStats db user_id guild_id).2.1,
         (viewStats db user_id guild_id).2.2) := by
  cases hs : db.get_user_stats user_id guild_id with
  | some s =>
    obtain ⟨hu, hg⟩ := stats_ids_of_lookup db user_id guild_id s hco hs
    have hs2 : dictLookup (user_id, guild_id) db.user_stats = some s := hs
    simp only [UserStatsManager.update_quest_accepted, UserStatsManager.get_user_stats, hs]
    simp [viewStats, Botv1.JSONDatabase.get_user_stats, Botv1.JSONDatabase.save_user_stats,
      hs2, hu, hg, dictLookup_dictInsert_self]
  | none =>
    have hs2 : dictLookup (user_id, guild_id) db.user_stats = none := hs
    simp only [UserStatsManager.update_quest_accepted, UserStatsManager.get_user_stats, hs]
    simp [viewStats, Botv1.JSONDatabase.get_user_stats, Botv1.JSONDatabase.save_user_stats,
      hs2, dictLookup_dictInsert_self]

theorem viewStats_update_completed (db : Botv1.JSONDatabase) (user_id guild_id : Int)
    (now : Nat) (hco : statsCoherent db) :
    viewStats (UserStatsManager.update_quest_completed db user_id guild_id now)
        user_id guild_id
      = ((viewStats db user_id guild_id).1, (viewStats db user_id guild_id).2.1 + 1,
         (viewStats db user_id guild_id).2.2) := by
  cases hs : db.get_user_stats user_id guild_id with
  | some s =>
    obtain ⟨hu, hg⟩ := stats_ids_of_lookup db user_id guild_id s hco hs
    have hs2 : dictLookup (user_id, guild_id) db.user_stats = some s := hs
    simp only [UserStatsManager.update_quest_completed, UserStatsManager.get_user_stats, hs]
    simp [viewStats, Botv1.JSONDatabase.get_user_stats, Botv1.JSONDatabase.save_user_stats,
      hs2, hu, hg, dictLookup_dictInsert_self]
  | none =>
    have hs2 : dictLookup (user_id, guild_id) db.user_stats = none := hs
    simp only [UserStatsManager.update_quest_completed, UserStatsManager.get_user_stats, hs]
    simp [viewStats, Botv1.JSONDatabase.get_user_stats, Botv1.JSONDatabase.save_user_stats,
      hs2, dictLookup_dictInsert_self]

theorem viewStats_update_rejected (db : Botv1.JSONDatabase) (user_id guild_id : Int)
    (now : Nat) (hco : statsCoherent db) :
    viewStats (UserStatsManager.update_quest_rejected db user_id guild_id now)
        user_id guild_id
      = ((viewStats db user_id guild_id).1, (viewStats db user_id guild_id).2.1,
         (viewStats db user_id guild_id).2.2 + 1) := by
  cases hs : db.get_user_stats user_id guild_id with
  | some s =>
    obtain ⟨hu, hg⟩ := stats_ids_of_lookup db user_id guild_id s hco hs
    have hs2 : dictLookup (user_id, guild_id) db.user_stats = some s := hs
    simp only [UserStatsManager.update_quest_rejected, UserStatsManager.get_user_stats, hs]
    simp [viewStats, Botv1.JSONDatabase.get_user_stats, Botv1.JSONDatabase.save_user_stats,
      hs2, hu, hg, dictLookup_dictInsert_self]
  | none =>
    have hs2 : dictLookup (user_id, guild_id) db.user_stats = none := hs
    simp only [UserStatsManager.update_quest_rejected, UserStatsManager.get_user_stats, hs]
    simp [viewStats, Botv1.JSONDatabase.get_user_stats, Botv1.JSONDatabase.save_user_stats,
      hs2, dictLookup_dictInsert_self]

/-- On a coherent store, a statistics-recording call for one pair does not
change the counters seen by any other pair. -/
theorem viewStats_applyStatsOp_ne (db : Botv1.JSONDatabase) (op : StatsOp)
    (user_id guild_id : Int) (hco : statsCoherent db)
    (h : (user_id, guild_id) ≠ (op.user_id, op.guild_id)) :
    viewStats (applyStatsOp db op) user_id guild_id = viewStats db user_id guild_id := by
  have key : ∀ s : UserStats, s.user_id = op.user_id → s.guild_id = op.guild_id →
      ∀ db' : Botv1.JSONDatabase,
        (db'.save_user_stats s).get_user_stats user_id guild_id
          = db'.get_user_stats user_id guild_id := by
    intro s hsu hsg db'
    simp only [Botv1.JSONDatabase.save_user_stats, Botv1.JSONDatabase.get_user_stats]
    rw [hsu, hsg]
    exact dictLookup_dictInsert_ne _ _ h
  have main : ∀ db₀ : Botv1.JSONDatabase, statsCoherent db₀ →
      ∀ f : UserStats → UserStats,
      (∀ s, (f s).user_id = s.user_id ∧ (f s).guild_id = s.guild_id) →
      viewStats ((UserStatsManager.get_user_stats db₀ op.user_id op.guild_id op.now).2.save_user_stats
          (f (UserStatsManager.get_user_stats db₀ op.user_id op.guild_id op.now).1))
          user_id guild_id
        = viewStats db₀ user_id guild_id := by
    intro db₀ hco₀ f hf
    unfold UserStatsManager.get_user_stats
    cases hs : db₀.get_user_stats op.user_id op.guild_id with
    | some s =>
      obtain ⟨hu, hg⟩ := stats_ids_of_lookup db₀ op.user_id op.guild_id s hco₀ hs
      simp only [viewStats]
      rw [key (f s) ((hf s).1.trans hu) ((hf s).2.trans hg) db₀]
    | none =>
      simp only [viewStats]
      rw [key (f _) (hf _).1 (hf _).2, key _ rfl rfl db₀]
  cases hk : op.kind
  · simp only [applyStatsOp, hk, UserStatsManager.update_quest_accepted]
    exact main db hco
      (fun s => { s with quests_accepted := s.quests_accepted + 1, last_quest_date := op.now })
      (fun s => ⟨rfl, rfl⟩)
  · simp only [applyStatsOp, hk, UserStatsManager.update_quest_completed]
    exact main db hco
      (fun s => { s with quests_completed := s.quests_completed + 1, last_quest_date := op.now })
      (fun s => ⟨rfl, rfl⟩)
  · simp only [applyStatsOp, hk, UserStatsManager.update_quest_rejected]
    exact main db hco
      (fun s => { s with quests_rejected := s.quests_rejected + 1, last_quest_date := op.now })
      (fun s => ⟨rfl, rfl⟩)

theorem statsLe_trans {a b c : Nat × Nat × Nat} (h1 : statsLe a b) (h2 : statsLe b c) :
    statsLe a c :=
  ⟨h1.1.trans h2.1, h1.2.1.trans h2.2.1, h1.2.2.trans h2.2.2⟩

theorem viewStats_le_applyStatsOp (db : Botv1.JSONDatabase) (op : StatsOp)
    (user_id guild_id : Int) (hco : statsCoherent db) :
    statsLe (viewStats db user_id guild_id)
      (viewStats (applyStatsOp db op) user_id guild_id) := by
  by_cases h : (user_id, guild_id) = (op.user_id, op.guild_id)
  · obtain ⟨h1, h2⟩ : user_id = op.user_id ∧ guild_id = op.guild_id := by
      simpa [Prod.mk.injEq] using h
    subst h1
    subst h2
    cases hk : op.kind
    · simp only [applyStatsOp, hk]
      rw [viewStats_update_accepted db op.user_id op.guild_id op.now hco]
      exact ⟨Nat.le_succ _, le_refl _, le_refl _⟩
    · simp only [applyStatsOp, hk]
      rw [viewStats_update_completed db op.user_id op.guild_id op.now hco]
      exact ⟨le_refl _, Nat.le_succ _, le_refl _⟩
    · simp only [applyStatsOp, hk]
      rw [viewStats_update_rejected db op.user_id op.guild_id op.now hco]
      exact ⟨le_refl _, le_refl _, Nat.le_succ _⟩
  · rw [viewStats_applyStatsOp_ne db op user_id guild_id hco h]
    exact ⟨le_refl _, le_refl _, le_refl _⟩

theorem viewStats_foldl_mono (ops : List StatsOp) :
    ∀ db : Botv1.JSONDatabase, statsCoherent db → ∀ user_id guild_id : Int,
      statsLe (viewStats db user_id guild_id)
        (viewStats (ops.foldl applyStatsOp db) user_id guild_id) := by
  induction ops with
  | nil =>
    intro db _ user_id guild_id
    exact ⟨le_refl _, le_refl _, le_refl _⟩
  | cons op ops ih =>
    intro db hco user_id guild_id
    simp only [List.foldl_cons]
    exact statsLe_trans (viewStats_le_applyStatsOp db op user_id guild_id hco)
      (ih (applyStatsOp db op) (statsCoherent_applyStatsOp db op hco) user_id guild_id)

/-- C6. On a coherent store, each of the three recording operations bumps
exactly its own counter of the target pair by one and leaves the other two
counters unchanged; consequently, across any sequence of recording
operations the triple (accepted, completed, rejected) of every pair is
monotonically non-decreasing. -/
theorem record_ops_increment_and_monotone (db : Botv1.JSONDatabase)
    (user_id guild_id : Int) (now : Nat) (hco : statsCoherent db) :
    viewStats (UserStatsManager.update_quest_accepted db user_id guild_id now)
        user_id guild_id
      = ((viewStats db user_id guild_id).1 + 1, (viewStats db user_id guild_id).2.1,
         (viewStats db user_id guild_id).2.2)
    ∧ viewStats (UserStatsManager.update_quest_completed db user_id guild_id now)
        user_id guild_id
      = ((viewStats db user_id guild_id).1, (viewStats db user_id guild_id).2.1 + 1,
         (viewStats db user_id guild_id).2.2)
    ∧ viewStats (UserStatsManager.update_quest_rejected db user_id guild_id now)
        user_id guild_id
      = ((viewStats db user_id guild_id).1, (viewStats db user_id guild_id).2.1,
         (viewStats db user_id guild_id).2.2 + 1)
    ∧ ∀ ops : List StatsOp, ∀ u g : Int,
        statsLe (viewStats db u g) (viewStats (ops.foldl applyStatsOp db) u g) :=
  ⟨viewStats_update_accepted db user_id guild_id now hco,
   viewStats_update_completed db user_id guild_id now hco,
   viewStats_update_rejected db user_id guild_id now hco,
   fun ops u g => viewStats_foldl_mono ops db hco u g⟩

/-- Concrete run for C6: recording an acceptance for a fresh pair yields
counters (1, 0, 0), and a mixed sequence of recording events leaves user 1's
counters in guild 10 no smaller than before. -/
theorem record_ops_increment_and_monotone_witness :
    viewStats (UserStatsManager.update_quest_accepted statsDB 7 10 5) 7 10 = (1, 0, 0)
    ∧ statsLe (viewStats statsDB 1 10)
        (viewStats ([⟨.completed, 1, 10, 6⟩, ⟨.accepted, 2, 10, 7⟩].foldl applyStatsOp
          statsDB) 1 10) := by
  have h := record_ops_increment_and_monotone statsDB 7 10 5
    (by unfold statsCoherent; decide)
  constructor
  · rw [h.1]
    decide
  · exact h.2.2.2 [⟨.completed, 1, 10, 6⟩, ⟨.accepted, 2, 10, 7⟩] 1 10

/-! ### Leaderboard lemmas (C9) -/

theorem statKeyLe_trans (a b c : Nat × Nat) (h1 : statKeyLe a b = true)
    (h2 : statKeyLe b c = true) : statKeyLe a c = true := by
  simp only [statKeyLe, Bool.or_eq_true, Bool.and_eq_true, decide_eq_true_eq,
    beq_iff_eq] at *
  omega

theorem statKeyLe_total (a b : Nat × Nat) : statKeyLe a b || statKeyLe b a := by
  simp only [statKeyLe, Bool.or_eq_true, Bool.and_eq_true, decide_eq_true_eq, beq_iff_eq]
  omega

theorem leaderboardLe_trans (a b c : UserStats) (h1 : leaderboardLe a b = true)
    (h2 : leaderboardLe b c = true) : leaderboardLe a c = true :=
  statKeyLe_trans _ _ _ h2 h1

theorem leaderboardLe_total (a b : UserStats) : leaderboardLe a b || leaderboardLe b a :=
  statKeyLe_total (b.quests_completed, b.quests_accepted)
    (a.quests_completed, a.quests_accepted)

theorem leaderboardLe_iff (x y : UserStats) :
    leaderboardLe x y = true
      ↔ (y.quests_completed < x.quests_completed
          ∨ (y.quests_completed = x.quests_completed
              ∧ y.quests_accepted ≤ x.quests_accepted)) := by
  simp only [leaderboardLe, statKeyLe, Bool.or_eq_true, Bool.and_eq_true,
    decide_eq_true_eq, beq_iff_eq]

/-- C9. For any `limit ≤ 25`, the guild leaderboard has at most `limit`
entries, every entry belongs to the guild, entries are sorted by
`quests_completed` descending with ties by `quests_accepted` descending, and
entries tied on both keys keep the insertion order of the underlying store
(their subsequence of the result is a subsequence of the guild's records in
store order). -/
theorem get_guild_leaderboard_spec (db : Botv1.JSONDatabase) (guild_id : Int)
    (limit : Nat) (_hlim : limit ≤ 25) :
    (db.get_guild_leaderboard guild_id limit).length ≤ limit
    ∧ (∀ s ∈ db.get_guild_leaderboard guild_id limit, s.guild_id = guild_id)
    ∧ (db.get_guild_leaderboard guild_id limit).Pairwise (fun x y =>
        y.quests_completed < x.quests_completed
          ∨ (y.quests_completed = x.quests_completed
              ∧ y.quests_accepted ≤ x.quests_accepted))
    ∧ (∀ c a : Nat,
        List.Sublist
          ((db.get_guild_leaderboard guild_id limit).filter
            (fun s => decide (s.quests_completed = c ∧ s.quests_accepted = a)))
          (((db.user_stats.map Prod.snd).filter
                (fun s => decide (s.guild_id = guild_id))).filter
            (fun s => decide (s.quests_completed = c ∧ s.quests_accepted = a)))) := by
  have hlb : db.get_guild_leaderboard guild_id limit
      = (((db.user_stats.map Prod.snd).filter
            (fun s => decide (s.guild_id = guild_id))).mergeSort leaderboardLe).take limit :=
    rfl
  refine ⟨?_, ?_, ?_, ?_⟩
  · rw [hlb, List.length_take]
    exact min_le_left _ _
  · intro s hs
    rw [hlb] at hs
    have hmem := (List.take_sublist _ _).subset hs
    rw [List.mem_mergeSort] at hmem
    simpa using (List.mem_filter.mp hmem).2
  · have hsorted := List.sorted_mergeSort leaderboardLe_trans leaderboardLe_total
      ((db.user_stats.map Prod.snd).filter (fun s => decide (s.guild_id = guild_id)))
    rw [hlb]
    exact (List.Pairwise.sublist (List.take_sublist _ _) hsorted).imp
      (fun h => (leaderboardLe_iff _ _).mp h)
  · intro c a
    have h1 : List.Sublist
          (((db.user_stats.map Prod.snd).filter
            (fun s => decide (s.guild_id = guild_id))).filter
            (fun s => decide (s.quests_completed = c ∧ s.quests_accepted = a)))
          ((db.user_stats.map Prod.snd).filter (fun s => decide (s.guild_id = guild_id))) :=
      List.filter_sublist _
    have h2 : (((db.user_stats.map Prod.snd).filter
          (fun s => decide (s.guild_id = guild_id))).filter
          (fun s => decide (s.quests_completed = c ∧ s.quests_accepted = a))).Pairwise
          (fun x y => leaderboardLe x y = true) := by
      apply List.pairwise_of_forall_mem_list
      intro x hx y hy
      obtain ⟨hxc, hxa⟩ : x.quests_completed = c ∧ x.quests_accepted = a := by
        simpa using (List.mem_filter.mp hx).2
      obtain ⟨hyc, hya⟩ : y.quests_completed = c ∧ y.quests_accepted = a := by
        simpa using (List.mem_filter.mp hy).2
      rw [leaderboardLe_iff]
      omega
    have h3 := List.sublist_mergeSort leaderboardLe_trans leaderboardLe_total h2 h1
    have h4 := (List.mergeSort_perm ((db.user_stats.map Prod.snd).filter
        (fun s => decide (s.guild_id = guild_id))) leaderboardLe).filter
        (fun s => decide (s.quests_completed = c ∧ s.quests_accepted = a))
    have hself : (((db.user_stats.map Prod.snd).filter
          (fun s => decide (s.guild_id = guild_id))).filter
          (fun s => decide (s.quests_completed = c ∧ s.quests_accepted = a))).filter
          (fun s => decide (s.quests_completed = c ∧ s.quests_accepted = a))
        = ((db.user_stats.map Prod.snd).filter
            (fun s => decide (s.guild_id = guild_id))).filter
            (fun s => decide (s.quests_completed = c ∧ s.quests_accepted = a)) :=
      List.filter_eq_self.mpr (fun b hb => (List.mem_filter.mp hb).2)
    have h5 := h3.filter (fun s => decide (s.quests_completed = c ∧ s.quests_accepted = a))
    rw [hself] at h5
    have h6 := h5.eq_of_length h4.length_eq.symm
    rw [hlb, h6]
    exact (List.take_sublist _ _).filter _

/-- Concrete run for C9: in guild 10 with limit 3 the leaderboard has at
most 3 entries, and the records tied at (completed, accepted) = (2, 5)
appear as a subsequence of the store's insertion order. -/
theorem get_guild_leaderboard_spec_witness :
    (Botv1.JSONDatabase.get_guild_leaderboard statsDB 10 3).length ≤ 3
    ∧ List.Sublist
          ((Botv1.JSONDatabase.get_guild_leaderboard statsDB 10 3).filter
            (fun s => decide (s.quests_completed = 2 ∧ s.quests_accepted = 5)))
          (((statsDB.user_stats.map Prod.snd).filter
              (fun s => decide (s.guild_id = 10))).filter
            (fun s => decide (s.quests_completed = 2 ∧ s.quests_accepted = 5))) := by
  have h := get_guild_leaderboard_spec statsDB 10 3 (by decide)
  exact ⟨h.1, h.2.2.2 2 5⟩

end Botv1
